import Mathlib

/-!
Verification development for the jsonata-rs evaluation core.

The repository has two source files: `src/evaluator/mod.rs` (the tree-walking
evaluator) and `src/symbol.rs` (the Pratt-parser operator table).  This file
gives a shallow embedding of both and proves properties of the embedded
definitions.

Modelling conventions:
* Rust `Result<Value>` becomes `Except EvalErr (Value × Store)`; a Rust
  `panic!`/`unimplemented!` is embedded as the distinguished error
  `EvalErr.unimplemented` so that evaluation stays a total function.
* JSON numbers are IEEE-754 doubles in the source; they are modelled as `ℚ`
  here.  Every numeric computation appearing in the theorems below involves
  only small integers, on which double and rational arithmetic agree exactly.
* The shared mutable frame chain (`Rc<RefCell<Frame>>` in the source, whose
  `frame.rs` is not part of the two source files) is modelled as an arena:
  a `Store` is the list of all allocated frames, a frame link is an index
  into it, and evaluation threads the store.
* `value.rs` and the `functions` crate (`append`, `boolean`) are declared but
  not present under `src/`; the definitions that stand in for them are marked
  `Modelled from the spec:` and follow the specification's wording.
* `groups.keys()` in `evaluate_group_expression` iterates a Rust
  `std::collections::HashMap`, whose iteration order is unspecified.  The
  embedding therefore takes the key-enumeration order as an explicit
  parameter (`KeyOrder`); any permutation of the stored keys is a legitimate
  behaviour of the source program.  `defaultKeyOrder` (insertion order) is
  used as an executable stand-in where a single concrete run is needed.
-/

namespace JsonataRs

/-- Modelled from the spec: `value.rs` is not under `src/`.  §3 gives the
runtime value model: Undefined; Null; Bool; Number; String; Array with the
flags `is_sequence`, `cons`, `keep_singleton`; Object as an ordered mapping
with first-insertion key order. -/
inductive Value where
  | undefined : Value
  | null : Value
  | bool (b : Bool) : Value
  | num (n : ℚ) : Value
  | str (s : String) : Value
  | arr (items : List Value) (is_sequence : Bool) (cons : Bool) (keep_singleton : Bool) : Value
  | obj (entries : List (String × Value)) : Value

/-- `Value::is_undefined`. -/
def Value.isUndefined : Value → Bool
  | .undefined => true
  | _ => false

/-- `Value::is_string`. -/
def Value.isString : Value → Bool
  | .str _ => true
  | _ => false

/-- `Value::as_str`; only called on values that passed `is_string`. -/
def Value.asStr : Value → String
  | .str s => s
  | _ => ""

/-- `Value::is_array`. -/
def Value.isArray : Value → Bool
  | .arr _ _ _ _ => true
  | _ => false

/-- `Value::is_number`. -/
def Value.isNumber : Value → Bool
  | .num _ => true
  | _ => false

/-- `Value::is_empty` as used by `evaluate_group_expression` (reached only on
arrays: it asks whether the input array has no items). -/
def Value.isEmptyArray : Value → Bool
  | .arr items _ _ _ => items.isEmpty
  | _ => false

/-- The item list of an array value (`Value::iter`); `[]` on non-arrays,
which the evaluator never relies on. -/
def Value.arrItems : Value → List Value
  | .arr items _ _ _ => items
  | _ => []

mutual
/-- Modelled from the spec: `value.rs` (with the `PartialEq` impl used by
`lhs == rhs` in the equality operator) is not under `src/`.  §4.2 calls the
operation "structural/value equality"; this is structural equality of the
embedded values. -/
def Value.beq : Value → Value → Bool
  | .undefined, .undefined => true
  | .null, .null => true
  | .bool a, .bool b => a == b
  | .num a, .num b => a == b
  | .str a, .str b => a == b
  | .arr xs s1 c1 k1, .arr ys s2 c2 k2 =>
      s1 == s2 && c1 == c2 && k1 == k2 && Value.beqList xs ys
  | .obj xs, .obj ys => Value.beqObj xs ys
  | _, _ => false

/-- Structural equality on item lists. -/
def Value.beqList : List Value → List Value → Bool
  | [], [] => true
  | x :: xs, y :: ys => Value.beq x y && Value.beqList xs ys
  | _, _ => false

/-- Structural equality on object entry lists. -/
def Value.beqObj : List (String × Value) → List (String × Value) → Bool
  | [], [] => true
  | (k1, v1) :: xs, (k2, v2) :: ys => k1 == k2 && Value.beq v1 v2 && Value.beqObj xs ys
  | _, _ => false
end

mutual
/-- Modelled from the spec: the `boolean` coercion lives in the external
`functions` crate.  §4.2: Undefined and Null are falsy; Bool is itself;
Number is falsy only at 0; String is falsy only when empty; an array is
falsy when empty and otherwise truthy when any element coerces to truthy.
The spec is silent on objects; an object is taken to be truthy when it has
entries. -/
def boolean : Value → Bool
  | .undefined => false
  | .null => false
  | .bool b => b
  | .num n => !(n == 0)
  | .str s => !s.isEmpty
  | .arr items _ _ _ => booleanAny items
  | .obj entries => !entries.isEmpty

/-- Truthiness of some element of a list. -/
def booleanAny : List Value → Bool
  | [] => false
  | x :: xs => boolean x || booleanAny xs
end

/-- One level of flattening: an array contributes its items, any other value
contributes itself. -/
def Value.appendItems : Value → List Value
  | .arr items _ _ _ => items
  | v => [v]

/-- Modelled from the spec: `append` lives in the external `functions` crate.
§6 gives its contract: given an accumulator and a new item, return a value
equivalent to their one-level-flattened concatenation, preserving order.
The result is an engine-synthesized sequence. -/
def append (a b : Value) : Value :=
  .arr (a.appendItems ++ b.appendItems) true false false

/-- Modelled from the spec: `frame.rs` is not under `src/`.  §3: a frame is a
node in a parent-linked chain owning a name→value mapping. -/
structure Frame where
  bindings : List (String × Value)
  parent : Option Nat

/-- The arena of all allocated frames; a frame link is an index into it. -/
structure Store where
  frames : List Frame

/-- A store holding a single fresh root frame. -/
def store0 : Store := ⟨[⟨[], none⟩]⟩

/-- `Frame::new_with_parent`: allocate a child frame; returns the new store
and the new frame's link. -/
def Store.newChildFrame (s : Store) (f : Nat) : Store × Nat :=
  (⟨s.frames ++ [⟨[], some f⟩]⟩, s.frames.length)

/-- Insert into a frame's own mapping, replacing an existing binding of the
same name (hash-map insert semantics). -/
def bindingsInsert (bs : List (String × Value)) (name : String) (v : Value) :
    List (String × Value) :=
  match bs with
  | [] => [(name, v)]
  | (k, w) :: rest =>
      if k == name then (k, v) :: rest else (k, w) :: bindingsInsert rest name v

/-- Find a binding in a single frame's own mapping. -/
def bindingsFind (bs : List (String × Value)) (name : String) : Option Value :=
  match bs with
  | [] => none
  | (k, v) :: rest => if k == name then some v else bindingsFind rest name

/-- Rebuild the frame list with the binding installed in the frame at the
given index, leaving every other frame untouched. -/
def framesBind : List Frame → Nat → String → Value → List Frame
  | [], _, _, _ => []
  | fr :: rest, 0, name, v =>
      { fr with bindings := bindingsInsert fr.bindings name v } :: rest
  | fr :: rest, i + 1, name, v => fr :: framesBind rest i name v

/-- `Frame::bind` through a link: writes land only in the frame that
performed the binding, never in an ancestor (spec §3). -/
def Store.bind (s : Store) (f : Nat) (name : String) (v : Value) : Store :=
  ⟨framesBind s.frames f name v⟩

/-- Walk the chain from a frame toward the root; the work budget `w` bounds
the number of frames visited (every reachable store is acyclic because a
child's parent link always points at an older frame). -/
def Store.lookupFrom (s : Store) : Nat → Nat → String → Option Value
  | 0, _, _ => none
  | w + 1, f, name =>
      match s.frames.get? f with
      | none => none
      | some fr =>
          match bindingsFind fr.bindings name with
          | some v => some v
          | none =>
              match fr.parent with
              | some p => s.lookupFrom w p name
              | none => none

/-- `Frame::lookup`: self → parent → … → root, first hit wins (spec §3). -/
def Store.lookup (s : Store) (f : Nat) (name : String) : Option Value :=
  s.lookupFrom s.frames.length f name

/-- The binary operators handled by `evaluate_binary_op`
(`parser::ast::BinaryOp`; the AST module is not under `src/`, the
constructors are the ones the evaluator names). -/
inductive BinaryOp where
  | add | subtract | multiply | divide | modulus
  | lessThan | lessThanEqual | greaterThan | greaterThanEqual
  | equal | notEqual
  | bind
deriving BEq

mutual
/-- `parser::ast::NodeKind` restricted to the kinds `evaluate` dispatches on;
`path` stands for `NodeKind::Path(..)` (and every other kind), whose
evaluation is `unimplemented!` in the source. -/
inductive NodeKind where
  | null : NodeKind
  | bool (b : Bool) : NodeKind
  | str (s : String) : NodeKind
  | num (n : ℚ) : NodeKind
  | block (exprs : List Node) : NodeKind
  | unary (op : UnaryOp) : NodeKind
  | binary (op : BinaryOp) (lhs rhs : Node) : NodeKind
  | var (name : String) : NodeKind
  | ternary (cond truthy : Node) (falsy : Option Node) : NodeKind
  | path : NodeKind

/-- `parser::ast::UnaryOp`. -/
inductive UnaryOp where
  | minus (expr : Node) : UnaryOp
  | arrayConstructor (elems : List Node) : UnaryOp
  | objectConstructor (pairs : List (Node × Node)) : UnaryOp

/-- `parser::ast::Node`: a kind plus the attached predicate (filter) list and
the parse-time flags.  `predicates` is `Option<Vec<Node>>` in the source; an
absent list and an empty list drive the filter loop identically, so a plain
list is used.  Source positions are not modelled. -/
inductive Node where
  | mk (kind : NodeKind) (predicates : List Node) (keep_array : Bool) (cons_array : Bool) : Node
end

/-- The node's kind. -/
def Node.kind : Node → NodeKind
  | .mk k _ _ _ => k

/-- The node's predicate list. -/
def Node.predicates : Node → List Node
  | .mk _ p _ _ => p

/-- The node's parse-time keep-array flag. -/
def Node.keep_array : Node → Bool
  | .mk _ _ ka _ => ka

/-- The node's explicit-array-literal flag. -/
def Node.cons_array : Node → Bool
  | .mk _ _ _ ca => ca

/-- Whether a node kind is a variable reference (`NodeKind::Var`), the test
the bind operator performs on its left-hand side. -/
def NodeKind.isVar : NodeKind → Bool
  | .var _ => true
  | _ => false

/-- A node with no predicates and cleared flags. -/
def mkNode (k : NodeKind) : Node := .mk k [] false false

/-- A number literal node. -/
def numN (n : ℚ) : Node := mkNode (.num n)

/-- A string literal node. -/
def strN (s : String) : Node := mkNode (.str s)

/-- A variable reference node. -/
def varN (name : String) : Node := mkNode (.var name)

/-- `tokenizer::TokenKind` as matched by `symbol.rs` (`end`, `in`, `at` and
`variable` are Lean keywords, hence the `Tok`/`Op` suffixes). -/
inductive TokenKind where
  | endTok
  | range | assignment | notEqual | greaterEqual | lessEqual
  | descendantWildcard | chainFunction
  | and | or | inOp
  | period | leftBracket | rightBracket | leftBrace | rightBrace
  | leftParen | rightParen | comma | atTok | hash | semiColon | colon
  | question | add | sub | mul | div | mod | pipe | equ
  | rightCaret | leftCaret | pow | ampersand | notTok | tilde
  | null | boolean (b : Bool) | string (s : String) | number (n : ℚ)
  | name (s : String) | variableTok (s : String)

/-- `Symbol::lbp for Token` (src/symbol.rs lines 14–66): the left binding
power of each token kind. -/
def lbp : TokenKind → Nat
  | .endTok => 0
  | .range => 20
  | .assignment => 10
  | .notEqual => 40
  | .greaterEqual => 40
  | .lessEqual => 40
  | .descendantWildcard => 60
  | .chainFunction => 40
  | .and => 30
  | .or => 25
  | .inOp => 40
  | .period => 75
  | .leftBracket => 80
  | .rightBracket => 0
  | .leftBrace => 70
  | .rightBrace => 0
  | .leftParen => 80
  | .rightParen => 0
  | .comma => 0
  | .atTok => 80
  | .hash => 80
  | .semiColon => 80
  | .colon => 80
  | .question => 20
  | .add => 50
  | .sub => 50
  | .mul => 60
  | .div => 60
  | .mod => 60
  | .pipe => 20
  | .equ => 40
  | .rightCaret => 40
  | .leftCaret => 40
  | .pow => 40
  | .ampersand => 50
  | .notTok => 0
  | .tilde => 0
  | .null => 0
  | .boolean _ => 0
  | .string _ => 0
  | .number _ => 0
  | .name _ => 0
  | .variableTok _ => 0

/-- `crate::ast::Node` as built by `Symbol::nud` in src/symbol.rs (that AST
module is not under `src/`; the constructors are the ones `nud` names). -/
inductive PNode where
  | nullLit : PNode
  | booleanLit (b : Bool) : PNode
  | stringLit (s : String) : PNode
  | numberLit (n : ℚ) : PNode
  | nameLit (s : String) : PNode
  | variableLit (s : String) : PNode
  | unaryMinus (expr : PNode) : PNode
  | wildcard : PNode
  | descendantWildcard : PNode
  | parent : PNode
deriving DecidableEq

/-- `Symbol::nud for Token` (src/symbol.rs lines 69–130).  The `Sub` arm
recurses into `parser.expression(70)`; that sub-parse's result is abstracted
as the argument `operand70`.  The final panic arm (error S0211, "cannot be
used as a unary operator") is `none`. -/
def nud (operand70 : PNode) : TokenKind → Option PNode
  | .null => some .nullLit
  | .boolean b => some (.booleanLit b)
  | .string s => some (.stringLit s)
  | .number n => some (.numberLit n)
  | .name s => some (.nameLit s)
  | .variableTok s => some (.variableLit s)
  | .and => some (.nameLit "and")
  | .or => some (.nameLit "and")
  | .inOp => some (.nameLit "and")
  | .sub => some (.unaryMinus operand70)
  | .mul => some .wildcard
  | .descendantWildcard => some .descendantWildcard
  | .mod => some .parent
  | _ => none

/-- Evaluation errors.  The source's error structs carry a source position
and a rendering of the offending value; neither affects control flow, so the
embedding keeps only the error kind (and the offending key for `D1009`).
`unimplemented` embeds a Rust `unimplemented!`/panic; `fatal` embeds the two
`unwrap`/indexing panics in group finalization that are unreachable by
construction; `outOfFuel` is an artefact of the fuel-indexed recursion and
never occurs at sufficient fuel. -/
inductive EvalErr where
  | d1002
  | t1003
  | d1009 (key : String)
  | t2001
  | t2002
  | t2009
  | t2010
  | unimplemented (msg : String)
  | fatal
  | outOfFuel

/-- The type of the recursive evaluation call threaded through the helper
functions: node, input value, frame link, store. -/
abbrev EvalFn := Node → Value → Nat → Store → Except EvalErr (Value × Store)

/-- A group accumulated by `evaluate_group_expression`: the merged data and
the declaration index of the pair that first produced the key. -/
structure Group where
  data : Value
  index : Nat

/-- The enumeration order of `groups.keys()` (a Rust `HashMap` iteration):
any function presenting the stored keys, honestly any permutation of them.
Theorems that depend on the order quantify over it. -/
abbrev KeyOrder := List (String × Group) → List String

/-- Truncation toward zero, matching how f64 `%` truncates its quotient. -/
def ratTrunc (q : ℚ) : Int := if q < 0 then -(Rat.floor (-q)) else Rat.floor q

/-- Floating remainder `a % b` carried over to the rational model. -/
def ratMod (a b : ℚ) : ℚ := a - b * (ratTrunc (a / b) : ℚ)

/-- The post-evaluation sequence normalization, src/evaluator/mod.rs lines
38–63: on a sequence-flagged array, force `keep_singleton` when the node's
`keep_array` flag is set, collapse an empty sequence to Undefined and a
singleton sequence to its item unless `keep_singleton` is set. -/
def normalize (keep_array : Bool) (v : Value) : Value :=
  match v with
  | .arr items true c ks =>
      let ks2 := ks || keep_array
      match items with
      | [] => .undefined
      | [x] => if ks2 then .arr items true c ks2 else x
      | _ => .arr items true c ks2
  | v => v

/-- `evaluate_filter` (src/evaluator/mod.rs lines 326–363).  It ignores its
frame argument.  Only numeric predicates are implemented: floor the number;
a non-array input counts as length 1 for the negative-index offset; for an
array input the element is fetched by index (a negative index after the
offset casts to a huge `usize` and fetches nothing), while a non-array input
is used as the item itself regardless of the index. -/
def evaluate_filter (node : Node) (input : Value) : Except EvalErr Value :=
  match node.kind with
  | .num n =>
      let index0 : Int := Rat.floor n
      let length : Int := if input.isArray then (input.arrItems.length : Int) else 1
      let index : Int := if index0 < 0 then index0 + length else index0
      let item : Option Value :=
        match input with
        | .arr items _ _ _ => if index < 0 then none else items.get? index.toNat
        | v => some v
      match item with
      | some it =>
          if it.isArray then .ok it
          else .ok (.arr [it] true false false)
      | none => .ok (.arr [] true false false)
  | _ => .error (.unimplemented "Filters other than numbers are not yet supported")

/-- The filter loop of `evaluate` (lines 32–36): apply each predicate, in
declared order, to the already-computed result.  The frame is passed in the
source but unused by `evaluate_filter`. -/
def applyPredicates : List Node → Value → Except EvalErr Value
  | [], r => .ok r
  | p :: rest, r =>
      match evaluate_filter p r with
      | .error e => .error e
      | .ok r2 => applyPredicates rest r2

/-- `evaluate_var` (lines 80–89).  An empty name hits
`unimplemented!("TODO: $ context variable not implemented yet")`; a named
reference walks the frame chain and never fails. -/
def evaluate_var (name : String) (_input : Value) (f : Nat) (s : Store) :
    Except EvalErr (Value × Store) :=
  if name.isEmpty then
    .error (.unimplemented "TODO: $ context variable not implemented yet")
  else
    match s.lookup f name with
    | some v => .ok (v, s)
    | none => .ok (.undefined, s)

/-- The expression loop of `evaluate_block` (lines 72–75): thread each
expression's result as the input of the next. -/
def blockLoop (evalF : EvalFn) : List Node → Value → Nat → Store →
    Except EvalErr (Value × Store)
  | [], result, _, s => .ok (result, s)
  | e :: rest, result, f, s =>
      match evalF e result f s with
      | .error err => .error err
      | .ok (r, s2) => blockLoop evalF rest r f s2

/-- `evaluate_block` (lines 66–78): open one child frame (before the
emptiness test, as in the source), yield Undefined for an empty block,
otherwise run the chained expression loop starting from the block's input. -/
def evaluate_block (evalF : EvalFn) (exprs : List Node) (input : Value) (f : Nat)
    (s : Store) : Except EvalErr (Value × Store) :=
  let fs := s.newChildFrame f
  if exprs.isEmpty then .ok (.undefined, fs.1)
  else blockLoop evalF exprs input fs.2 fs.1

/-- `evaluate_ternary` (lines 91–106). -/
def evaluate_ternary (evalF : EvalFn) (cond truthy : Node) (falsy : Option Node)
    (input : Value) (f : Nat) (s : Store) : Except EvalErr (Value × Store) :=
  match evalF cond input f s with
  | .error e => .error e
  | .ok (c, s2) =>
      if boolean c then evalF truthy input f s2
      else
        match falsy with
        | some e => evalF e input f s2
        | none => .ok (.undefined, s2)

/-- Association-list find on the group map (`groups.contains_key` /
`groups[key]`).  Insertion order is kept so that the key set can be
enumerated explicitly. -/
def lookupGroup (groups : List (String × Group)) (k : String) : Option Group :=
  match groups with
  | [] => none
  | (k2, g) :: rest => if k2 == k then some g else lookupGroup rest k

/-- Replace the data of the group stored under a key
(`groups.get_mut(key).unwrap().data = ...`). -/
def updateGroupData (groups : List (String × Group)) (k : String) (d : Value) :
    List (String × Group) :=
  match groups with
  | [] => []
  | (k2, g) :: rest =>
      if k2 == k then (k2, ⟨d, g.index⟩) :: rest
      else (k2, g) :: updateGroupData rest k d

/-- The per-key update of `evaluate_group_expression` (lines 165–182): a key
seen before raises `D1009` when the stored pair index equals the current one
and otherwise merges the item into the group's data with `append`; an unseen
key opens a new group remembering the item and the producing pair index. -/
def groupStep (groups : List (String × Group)) (key : String) (index : Nat)
    (item : Value) : Except EvalErr (List (String × Group)) :=
  match lookupGroup groups key with
  | some g =>
      if g.index == index then .error (.d1009 key)
      else .ok (updateGroupData groups key (append g.data item))
  | none => .ok (groups ++ [(key, ⟨item, index⟩)])

/-- The pair loop of `evaluate_group_item` (lines 154–183): evaluate each
declared key expression against the item, require a string key (`T1003`
otherwise), and fold the keyed update over the group map. -/
def groupItemPairs (evalF : EvalFn) (f : Nat) (item : Value) :
    List (Node × Node) → Nat → List (String × Group) → Store →
    Except EvalErr (List (String × Group) × Store)
  | [], _, groups, s => .ok (groups, s)
  | (kExpr, _) :: rest, index, groups, s =>
      match evalF kExpr item f s with
      | .error e => .error e
      | .ok (key, s2) =>
          if key.isString then
            match groupStep groups key.asStr index item with
            | .error e => .error e
            | .ok groups2 => groupItemPairs evalF f item rest (index + 1) groups2 s2
          else .error .t1003

/-- The closure `evaluate_group_item` (lines 153–186), acting on the group
map instead of returning a value. -/
def evaluate_group_item (evalF : EvalFn) (object : List (Node × Node)) (f : Nat)
    (item : Value) (groups : List (String × Group)) (s : Store) :
    Except EvalErr (List (String × Group) × Store) :=
  groupItemPairs evalF f item object 0 groups s

/-- The item loop of `evaluate_group_expression` (lines 193–195). -/
def groupItemsLoop (evalF : EvalFn) (object : List (Node × Node)) (f : Nat) :
    List Value → List (String × Group) → Store →
    Except EvalErr (List (String × Group) × Store)
  | [], groups, s => .ok (groups, s)
  | item :: rest, groups, s =>
      match evaluate_group_item evalF object f item groups s with
      | .error e => .error e
      | .ok (groups2, s2) => groupItemsLoop evalF object f rest groups2 s2

/-- The key loop of `evaluate_group_expression` (lines 200–206), run over an
explicitly given enumeration `order` of the group map's keys: evaluate the
producing pair's value expression against the group's accumulated data and
append the entry unless the value is Undefined.  The `fatal` branches embed
the `unwrap`/indexing panics, unreachable when `order` enumerates stored
keys. -/
def finalizeGroups (evalF : EvalFn) (object : List (Node × Node)) (f : Nat) :
    List String → List (String × Group) → Store → List (String × Value) →
    Except EvalErr (List (String × Value) × Store)
  | [], _, s, acc => .ok (acc, s)
  | k :: rest, groups, s, acc =>
      match lookupGroup groups k with
      | none => .error .fatal
      | some g =>
          match object[g.index]? with
          | none => .error .fatal
          | some pair =>
              match evalF pair.2 g.data f s with
              | .error e => .error e
              | .ok (v, s2) =>
                  if v.isUndefined then finalizeGroups evalF object f rest groups s2 acc
                  else finalizeGroups evalF object f rest groups s2 (acc ++ [(k, v)])

/-- `evaluate_group_expression` (lines 140–209): run the per-item pass (a
non-array input is a single item, an empty array runs one pass on Undefined,
an array is iterated), then finalize the groups in the `HashMap` enumeration
order supplied by `ko`. -/
def evaluate_group_expression (evalF : EvalFn) (ko : KeyOrder)
    (object : List (Node × Node)) (input : Value) (f : Nat) (s : Store) :
    Except EvalErr (Value × Store) :=
  let pass : Except EvalErr (List (String × Group) × Store) :=
    if !input.isArray then evaluate_group_item evalF object f input [] s
    else if input.isEmptyArray then evaluate_group_item evalF object f .undefined [] s
    else groupItemsLoop evalF object f input.arrItems [] s
  match pass with
  | .error e => .error e
  | .ok (groups, s2) =>
      match finalizeGroups evalF object f (ko groups) groups s2 [] with
      | .error e => .error e
      | .ok (entries, s3) => .ok (.obj entries, s3)

/-- The element loop of the array constructor (lines 122–126). -/
def evalElems (evalF : EvalFn) : List Node → Value → Nat → Store →
    Except EvalErr (List Value × Store)
  | [], _, _, s => .ok ([], s)
  | e :: rest, input, f, s =>
      match evalF e input f s with
      | .error err => .error err
      | .ok (v, s2) =>
          match evalElems evalF rest input f s2 with
          | .error err => .error err
          | .ok (vs, s3) => .ok (v :: vs, s3)

/-- `evaluate_unary_op` (lines 108–138). -/
def evaluate_unary_op (evalF : EvalFn) (ko : KeyOrder) (node : Node) (op : UnaryOp)
    (input : Value) (f : Nat) (s : Store) : Except EvalErr (Value × Store) :=
  match op with
  | .minus value =>
      match evalF value input f s with
      | .error e => .error e
      | .ok (result, s2) =>
          match result with
          | .undefined => .ok (.undefined, s2)
          | .num n => .ok (.num (-n), s2)
          | _ => .error .d1002
  | .arrayConstructor elems =>
      match evalElems evalF elems input f s with
      | .error e => .error e
      | .ok (items, s2) => .ok (.arr items false node.cons_array false, s2)
  | .objectConstructor object =>
      evaluate_group_expression evalF ko object input f s

/-- `evaluate_binary_op` (lines 211–324): the right operand is always
evaluated first; bind (`:=`) installs a binding only when the left-hand side
is a bare variable reference and returns the unchanged input; arithmetic
requires numbers on both sides (`T2001`/`T2002`); relational operators
require a number pair or a string pair (`T2010`/`T2009`); equality is false
whenever either side is Undefined and structural otherwise.  The node
argument of the source carries only the error position and is dropped. -/
def evaluate_binary_op (evalF : EvalFn) (op : BinaryOp) (lhs rhs : Node)
    (input : Value) (f : Nat) (s : Store) : Except EvalErr (Value × Store) :=
  match evalF rhs input f s with
  | .error e => .error e
  | .ok (rhsV, s1) =>
      match op with
      | .bind =>
          match lhs.kind with
          | .var name => .ok (input, s1.bind f name rhsV)
          | _ => .ok (input, s1)
      | _ =>
        match evalF lhs input f s1 with
        | .error e => .error e
        | .ok (lhsV, s2) =>
            match op with
            | .add | .subtract | .multiply | .divide | .modulus =>
                match lhsV with
                | .num a =>
                    match rhsV with
                    | .num b =>
                        .ok (.num (match op with
                                   | .add => a + b
                                   | .subtract => a - b
                                   | .multiply => a * b
                                   | .divide => a / b
                                   | _ => ratMod a b), s2)
                    | _ => .error .t2002
                | _ => .error .t2001
            | .lessThan | .lessThanEqual | .greaterThan | .greaterThanEqual =>
                if !((lhsV.isNumber || lhsV.isString) && (rhsV.isNumber || rhsV.isString))
                then .error .t2010
                else
                  match lhsV, rhsV with
                  | .num a, .num b =>
                      .ok (.bool (match op with
                                  | .lessThan => decide (a < b)
                                  | .lessThanEqual => decide (a ≤ b)
                                  | .greaterThan => decide (b < a)
                                  | _ => decide (b ≤ a)), s2)
                  | .str a, .str b =>
                      .ok (.bool (match op with
                                  | .lessThan => decide (a < b)
                                  | .lessThanEqual => decide (a ≤ b)
                                  | .greaterThan => decide (b < a)
                                  | _ => decide (b ≤ a)), s2)
                  | _, _ => .error .t2009
            | .equal | .notEqual =>
                if lhsV.isUndefined || rhsV.isUndefined then .ok (.bool false, s2)
                else
                  .ok (.bool (match op with
                              | .equal => Value.beq lhsV rhsV
                              | _ => !(Value.beq lhsV rhsV)), s2)
            | .bind => .error .fatal

/-- `evaluate` (src/evaluator/mod.rs lines 11–64): dispatch on the node
kind, apply the node's predicates to the result, then run the sequence
normalization.  The recursion is indexed by fuel, decremented at each
recursive descent; the fuel needed is bounded by the node's depth, and every
theorem below uses fuel amply above that bound. -/
def evaluate (ko : KeyOrder) : Nat → Node → Value → Nat → Store →
    Except EvalErr (Value × Store)
  | 0, _, _, _, _ => .error .outOfFuel
  | fuel + 1, node, input, f, s =>
      match
        (match node.kind with
         | .null => .ok (.null, s)
         | .bool b => .ok (.bool b, s)
         | .str t => .ok (.str t, s)
         | .num n => .ok (.num n, s)
         | .block exprs =>
             evaluate_block (fun n i fr st => evaluate ko fuel n i fr st) exprs input f s
         | .unary op =>
             evaluate_unary_op (fun n i fr st => evaluate ko fuel n i fr st) ko node op input f s
         | .binary op lhs rhs =>
             evaluate_binary_op (fun n i fr st => evaluate ko fuel n i fr st) op lhs rhs input f s
         | .var name => evaluate_var name input f s
         | .ternary c t e =>
             evaluate_ternary (fun n i fr st => evaluate ko fuel n i fr st) c t e input f s
         | .path => .error (.unimplemented "Path nodes not yet supported")
         : Except EvalErr (Value × Store))
      with
      | .error e => .error e
      | .ok (result, s2) =>
          match applyPredicates node.predicates result with
          | .error e => .error e
          | .ok result2 => .ok (normalize node.keep_array result2, s2)

/-- The insertion-order enumeration of the group map: an executable stand-in
for one possible `HashMap` iteration order. -/
def defaultKeyOrder : KeyOrder := fun gs => gs.map Prod.fst

/-- The reversed enumeration of the group map: another possible `HashMap`
iteration order. -/
def reverseKeyOrder : KeyOrder := fun gs => (gs.map Prod.fst).reverse

/-- Whether an evaluation result is a success. -/
def evalSucceeds (r : Except EvalErr (Value × Store)) : Bool :=
  match r with
  | .ok _ => true
  | .error _ => false

/-- A relational account of the group-finalization loop: one step per
enumerated key, each evaluating the producing pair's value expression
exactly once against the group's accumulated data, dropping the entry when
the value is Undefined and emitting it otherwise, in enumeration order. -/
inductive FinalizeTrace (evalF : EvalFn) (object : List (Node × Node)) (f : Nat)
    (groups : List (String × Group)) :
    List String → Store → List (String × Value) → Store → Prop where
  | nil : ∀ s, FinalizeTrace evalF object f groups [] s [] s
  | skip : ∀ k g pair s s1 rest out sEnd,
      lookupGroup groups k = some g →
      object[g.index]? = some pair →
      evalF pair.2 g.data f s = .ok (.undefined, s1) →
      FinalizeTrace evalF object f groups rest s1 out sEnd →
      FinalizeTrace evalF object f groups (k :: rest) s out sEnd
  | keep : ∀ k g pair v s s1 rest out sEnd,
      lookupGroup groups k = some g →
      object[g.index]? = some pair →
      evalF pair.2 g.data f s = .ok (v, s1) →
      v.isUndefined = false →
      FinalizeTrace evalF object f groups rest s1 out sEnd →
      FinalizeTrace evalF object f groups (k :: rest) s ((k, v) :: out) sEnd

/-- The AST of `($x := 5; $x + 1)`: a bind expression. -/
def bindX5 : Node := mkNode (.binary .bind (varN "x") (numN 5))

/-- The AST of `$x + 1`. -/
def addX1 : Node := mkNode (.binary .add (varN "x") (numN 1))

/-- The AST of the block `($x := 5; $x + 1)`. -/
def blockC6 : Node := mkNode (.block [bindX5, addX1])

/-- The store produced by evaluating `blockC6` from `store0`: the root frame
is untouched and the block's discarded child frame holds the binding. -/
def storeAfterC6 : Store := ⟨[⟨[], none⟩, ⟨[("x", .num 5)], some 0⟩]⟩

/-- A name/path expression such as `cat` or `name`: a node kind whose
evaluation is `unimplemented!` in src/evaluator/mod.rs (line 28). -/
def pathN : Node := mkNode .path

/-- The grouping expression `{(cat): (name)}` with path key/value
expressions. -/
def c1Node : Node := mkNode (.unary (.objectConstructor [(pathN, pathN)]))

/-- The input `[{"cat":"x","name":"a"}, {"cat":"x","name":"b"}]`. -/
def c1Input : Value :=
  .arr [ .obj [("cat", .str "x"), ("name", .str "a")],
         .obj [("cat", .str "x"), ("name", .str "b")] ] false false false

/-- The same single-pair grouping with a key expression the evaluator can
run: the string literal `"x"`, which yields the key `x` for both items just
as `(cat)` would. -/
def c1bNode : Node := mkNode (.unary (.objectConstructor [(strN "x", pathN)]))

/-- A bind with a non-variable left-hand side, `(1 := 2)`: it evaluates to
the current context item, so as a grouping key expression it keys each item
by itself. -/
def bindNonVar : Node := mkNode (.binary .bind (numN 1) (numN 2))

/-- A grouping whose single pair keys every item by itself and maps it to
the constant string `"v"`. -/
def c3Node : Node := mkNode (.unary (.objectConstructor [(bindNonVar, strN "v")]))

/-- The input `["a", "b"]`, producing the two groups `a` then `b` in
first-seen order. -/
def c3Input : Value := .arr [.str "a", .str "b"] false false false

/-- The group map built by evaluating `c3Node` against `c3Input`. -/
def c3Groups : List (String × Group) := [("a", ⟨.str "a", 0⟩), ("b", ⟨.str "b", 0⟩)]

/-- C1 (counterexample): evaluating the grouping `{(cat): (name)}` against
`[{"cat":"x","name":"a"}, {"cat":"x","name":"b"}]` does not succeed and in
particular does not return `{"x": ["a","b"]}`: the key expression `cat` is a
name/path-kind node, whose evaluation is `unimplemented!` in the evaluator
(src/evaluator/mod.rs line 28), so the whole evaluation aborts before any
grouping takes place. -/
theorem c1_counterexample :
    evalSucceeds (evaluate defaultKeyOrder 32 c1Node c1Input 0 store0) = false ∧
    evaluate defaultKeyOrder 32 c1Node c1Input 0 store0 =
      .error (.unimplemented "Path nodes not yet supported") :=
  ⟨by with_unfolding_all rfl, by with_unfolding_all rfl⟩

/-- C1 (amended): moreover, the duplicate-key condition alone already makes
the claimed result impossible.  With a single declared pair whose key
expression the evaluator can run and which produces the key `"x"` for both
items — exactly what `(cat)` would do on this input — grouping the two-item
array raises the duplicate-key error `D1009`, because the second occurrence
of the key comes from the same declared pair index (the code errors on a
same-index repeat, `groups[key].index == index`, and merges only on a
different index). -/
theorem c1_theorem :
    evaluate defaultKeyOrder 32 c1bNode c1Input 0 store0 = .error (.d1009 "x") := by
  with_unfolding_all rfl

/-- C2: the per-key update grouping performs for every item and every
declared pair (`groupStep`, invoked by `evaluate_group_item` at each pair
index): a key not seen before opens a new group recording the item and the
producing pair index; a key seen again produced by the same pair index
raises the duplicate-key error `D1009`; a key seen again produced by a
different pair index merges the new item into the group's accumulated data
by the one-level flattening `append`. -/
theorem c2_theorem (groups : List (String × Group)) (k : String) (i : Nat) (item : Value) :
    (lookupGroup groups k = none →
      groupStep groups k i item = .ok (groups ++ [(k, ⟨item, i⟩)])) ∧
    (∀ g, lookupGroup groups k = some g → g.index = i →
      groupStep groups k i item = .error (.d1009 k)) ∧
    (∀ g, lookupGroup groups k = some g → g.index ≠ i →
      groupStep groups k i item = .ok (updateGroupData groups k (append g.data item))) := by
  refine ⟨?_, ?_, ?_⟩
  · intro h; simp only [groupStep, h]
  · intro g h hidx; simp [groupStep, h, hidx]
  · intro g h hne; simp [groupStep, h, hne]

/-- Witness for C2: the three cases of the per-key update at concrete
inputs — a fresh key, a repeat from pair index 0, and a repeat from pair
index 1 against a group opened by pair index 0. -/
theorem c2_witness :
    groupStep [] "x" 0 (.num 1) = .ok [("x", ⟨.num 1, 0⟩)] ∧
    groupStep [("x", ⟨.num 1, 0⟩)] "x" 0 (.num 2) = .error (.d1009 "x") ∧
    groupStep [("x", ⟨.num 1, 0⟩)] "x" 1 (.num 2) =
      .ok (updateGroupData [("x", ⟨.num 1, 0⟩)] "x" (append (.num 1) (.num 2))) :=
  ⟨(c2_theorem [] "x" 0 (.num 1)).1 rfl,
   (c2_theorem [("x", ⟨.num 1, 0⟩)] "x" 0 (.num 2)).2.1 ⟨.num 1, 0⟩ rfl rfl,
   (c2_theorem [("x", ⟨.num 1, 0⟩)] "x" 1 (.num 2)).2.2 ⟨.num 1, 0⟩ rfl (by decide)⟩

/-- C3 (amended): whenever the finalization loop of a grouping expression
succeeds, its output is described by a `FinalizeTrace`: each enumerated key's
value expression is evaluated exactly once, against that group's accumulated
data (not the original input), and the key is omitted exactly when that
value is Undefined — with entries emitted in the key-enumeration order of
the hash map, which need not be first-seen order. -/
theorem c3_theorem (evalF : EvalFn) (object : List (Node × Node)) (f : Nat)
    (groups : List (String × Group)) (order : List String) :
    ∀ (s : Store) (acc entries : List (String × Value)) (sEnd : Store),
    finalizeGroups evalF object f order groups s acc = .ok (entries, sEnd) →
    ∃ out, entries = acc ++ out ∧ FinalizeTrace evalF object f groups order s out sEnd := by
  induction order with
  | nil =>
      intro s acc entries sEnd h
      unfold finalizeGroups at h
      simp only [Except.ok.injEq, Prod.mk.injEq] at h
      obtain ⟨h1, h2⟩ := h
      subst h1; subst h2
      exact ⟨[], by simp, .nil s⟩
  | cons k rest ih =>
      intro s acc entries sEnd h
      unfold finalizeGroups at h
      cases hg : lookupGroup groups k with
      | none => simp [hg] at h
      | some g =>
          simp only [hg] at h
          cases hp : object[g.index]? with
          | none => simp [hp] at h
          | some pair =>
              simp only [hp] at h
              cases he : evalF pair.2 g.data f s with
              | error e => simp [he] at h
              | ok vs =>
                  obtain ⟨v, s1⟩ := vs
                  simp only [he] at h
                  by_cases hu : v.isUndefined = true
                  · rw [if_pos hu] at h
                    obtain ⟨out, hout, tr⟩ := ih s1 acc entries sEnd h
                    have hv : v = .undefined := by
                      cases v <;> simp [Value.isUndefined] at hu ⊢
                    exact ⟨out, hout, .skip k g pair s s1 rest out sEnd hg hp (hv ▸ he) tr⟩
                  · rw [if_neg hu] at h
                    obtain ⟨out, hout, tr⟩ := ih s1 (acc ++ [(k, v)]) entries sEnd h
                    refine ⟨(k, v) :: out, ?_,
                      .keep k g pair v s s1 rest out sEnd hg hp he
                        (Bool.not_eq_true _ ▸ hu : v.isUndefined = false) tr⟩
                    rw [hout, List.append_assoc]
                    rfl

/-- Witness for C3: the finalization of a one-group map produces the traced
entry list. -/
theorem c3_witness :
    ∃ out, ([("a", Value.str "v")] : List (String × Value)) = [] ++ out ∧
      FinalizeTrace (fun _ _ _ s => .ok (.str "v", s)) [(strN "x", strN "v")] 0
        [("a", ⟨.null, 0⟩)] ["a"] store0 out store0 :=
  c3_theorem (fun _ _ _ s => .ok (.str "v", s)) [(strN "x", strN "v")] 0
    [("a", ⟨.null, 0⟩)] ["a"] store0 [] [("a", .str "v")] store0
    (by with_unfolding_all rfl)

/-- C3 (counterexample to first-seen key order): the reversed enumeration is
a permutation of the stored keys — hence a legitimate `HashMap` iteration
order — and under it the grouping of `["a", "b"]` by the item itself returns
the result object with keys `["b", "a"]`, not the first-seen order
`["a", "b"]` that insertion-order enumeration would give. -/
theorem c3_counterexample :
    (reverseKeyOrder c3Groups).Perm (defaultKeyOrder c3Groups) ∧
    evaluate reverseKeyOrder 32 c3Node c3Input 0 store0 =
      .ok (.obj [("b", .str "v"), ("a", .str "v")], store0) ∧
    (reverseKeyOrder c3Groups == defaultKeyOrder c3Groups) = false := by
  refine ⟨?_, by with_unfolding_all rfl, by with_unfolding_all rfl⟩
  show List.Perm ["b", "a"] ["a", "b"]
  exact List.Perm.swap "a" "b" []

/-- C4 (code behaviour at the failing input): evaluating a variable
reference with an empty name does not return the input — it hits
`unimplemented!("TODO: $ context variable not implemented yet")`
(src/evaluator/mod.rs line 83), embedded here as the corresponding error,
even though the comment directly above it says the empty name returns the
context value. -/
theorem c4_theorem :
    evaluate defaultKeyOrder 2 (varN "") .null 0 store0 =
      .error (.unimplemented "TODO: $ context variable not implemented yet") := by
  with_unfolding_all rfl

/-- C5 (code behaviour at the failing input): a numeric predicate applied to
a non-array result never yields an empty sequence — the value itself is used
as the item regardless of the index (`Some(input)`), so index 5 into the
non-array `42` produces the singleton sequence `[42]`, while the same
out-of-range index into an actual array correctly produces the empty
sequence. -/
theorem c5_theorem :
    evaluate_filter (numN 5) (.num 42) = .ok (.arr [.num 42] true false false) ∧
    evaluate_filter (numN 5) (.arr [.num 10, .num 20, .num 30] false false false) =
      .ok (.arr [] true false false) :=
  ⟨by with_unfolding_all rfl, by with_unfolding_all rfl⟩

/-- C6: for every input value (and every hash-order oracle), the block
`($x := 5; $x + 1)` evaluates to the number 6 — the block opens one child
frame, the bind installs `x` there and returns the threaded input, and the
next expression reads `x` from that frame — and evaluating `$x` afterwards
from the original root frame yields Undefined, since the binding lives only
in the discarded child frame. -/
theorem c6_theorem (ko : KeyOrder) (v : Value) :
    evaluate ko 32 blockC6 v 0 store0 = .ok (.num 6, storeAfterC6) ∧
    evaluate ko 32 (varN "x") v 0 storeAfterC6 = .ok (.undefined, storeAfterC6) :=
  ⟨by with_unfolding_all rfl, by with_unfolding_all rfl⟩

/-- C7: in `evaluate_binary_op`, whenever the two operands evaluate to
values `l` and `r`, the operators `=` and `!=` both return the boolean false
as soon as either value is Undefined (including both), and otherwise `=`
returns structural equality and `!=` its negation. -/
theorem c7_theorem (evalF : EvalFn) (lhs rhs : Node) (input : Value) (f : Nat)
    (s s1 s2 : Store) (r l : Value)
    (hrhs : evalF rhs input f s = .ok (r, s1))
    (hlhs : evalF lhs input f s1 = .ok (l, s2)) :
    ((l.isUndefined = true ∨ r.isUndefined = true) →
      evaluate_binary_op evalF .equal lhs rhs input f s = .ok (.bool false, s2) ∧
      evaluate_binary_op evalF .notEqual lhs rhs input f s = .ok (.bool false, s2)) ∧
    (l.isUndefined = false → r.isUndefined = false →
      evaluate_binary_op evalF .equal lhs rhs input f s = .ok (.bool (Value.beq l r), s2) ∧
      evaluate_binary_op evalF .notEqual lhs rhs input f s =
        .ok (.bool (!(Value.beq l r)), s2)) := by
  constructor
  · rintro (h | h) <;>
      exact ⟨by simp [evaluate_binary_op, hrhs, hlhs, h],
        by simp [evaluate_binary_op, hrhs, hlhs, h]⟩
  · intro h1 h2
    exact ⟨by simp [evaluate_binary_op, hrhs, hlhs, h1, h2],
      by simp [evaluate_binary_op, hrhs, hlhs, h1, h2]⟩

/-- Witness for C7: both equality operators on a pair of Undefined operands
return false, and on the operand pair (1, 1) they return structural equality
and its negation. -/
theorem c7_witness :
    (evaluate_binary_op (fun _ _ _ s => .ok (.undefined, s)) .equal (numN 0) (numN 0)
        .null 0 store0 = .ok (.bool false, store0) ∧
      evaluate_binary_op (fun _ _ _ s => .ok (.undefined, s)) .notEqual (numN 0) (numN 0)
        .null 0 store0 = .ok (.bool false, store0)) ∧
    (evaluate_binary_op (fun _ _ _ s => .ok (.num 1, s)) .equal (numN 0) (numN 0)
        .null 0 store0 = .ok (.bool (Value.beq (.num 1) (.num 1)), store0) ∧
      evaluate_binary_op (fun _ _ _ s => .ok (.num 1, s)) .notEqual (numN 0) (numN 0)
        .null 0 store0 = .ok (.bool (!(Value.beq (.num 1) (.num 1))), store0)) :=
  ⟨(c7_theorem (fun _ _ _ s => .ok (.undefined, s)) (numN 0) (numN 0) .null 0
      store0 store0 store0 .undefined .undefined rfl rfl).1 (Or.inl rfl),
   (c7_theorem (fun _ _ _ s => .ok (.num 1, s)) (numN 0) (numN 0) .null 0
      store0 store0 store0 (.num 1) (.num 1) rfl rfl).2 rfl rfl⟩

/-- C8: the left-binding-power table assigns the claimed powers — the
multiplicative tokens 60, the additive/concatenation tokens 50, the
equality, relational, membership and chain tokens 40, `and` 30, `or` 25 —
with the strict ordering between those bands; the member/index/brace
constructs lie in 70–80, range/ternary/pipe/bind in 10–20, and every
terminator has power 0. -/
theorem c8_theorem :
    (lbp .mul = 60 ∧ lbp .div = 60 ∧ lbp .mod = 60) ∧
    (lbp .add = 50 ∧ lbp .sub = 50 ∧ lbp .ampersand = 50) ∧
    (lbp .equ = 40 ∧ lbp .notEqual = 40 ∧ lbp .lessEqual = 40 ∧ lbp .greaterEqual = 40 ∧
      lbp .leftCaret = 40 ∧ lbp .rightCaret = 40 ∧ lbp .inOp = 40 ∧ lbp .chainFunction = 40) ∧
    (lbp .and = 30 ∧ lbp .or = 25) ∧
    (lbp .mul > lbp .add ∧ lbp .add > lbp .equ ∧ lbp .equ > lbp .and ∧ lbp .and > lbp .or) ∧
    (70 ≤ lbp .leftBrace ∧ lbp .leftBrace ≤ 80 ∧ 70 ≤ lbp .period ∧ lbp .period ≤ 80 ∧
      70 ≤ lbp .leftBracket ∧ lbp .leftBracket ≤ 80) ∧
    (10 ≤ lbp .assignment ∧ lbp .assignment ≤ 20 ∧ 10 ≤ lbp .range ∧ lbp .range ≤ 20 ∧
      10 ≤ lbp .question ∧ lbp .question ≤ 20 ∧ 10 ≤ lbp .pipe ∧ lbp .pipe ≤ 20) ∧
    (lbp .endTok = 0 ∧ lbp .rightBracket = 0 ∧ lbp .rightBrace = 0 ∧ lbp .rightParen = 0 ∧
      lbp .comma = 0) := by
  decide

/-- C9: if the left-hand side of a bind expression is any node other than a
variable reference, `evaluate_binary_op` still evaluates the right-hand side
(keeping whatever store that evaluation produced), installs no further
binding in any frame, raises no error, and returns the input value
unchanged. -/
theorem c9_theorem (evalF : EvalFn) (lhs rhs : Node) (input v : Value) (f : Nat)
    (s s1 : Store) (hvar : lhs.kind.isVar = false)
    (hrhs : evalF rhs input f s = .ok (v, s1)) :
    evaluate_binary_op evalF .bind lhs rhs input f s = .ok (input, s1) := by
  simp only [evaluate_binary_op, hrhs]
  cases hk : lhs.kind <;> first
    | rfl
    | (rw [hk] at hvar; simp [NodeKind.isVar] at hvar)

/-- Witness for C9: binding to the number literal `1` is a silent no-op that
returns the input. -/
theorem c9_witness :
    evaluate_binary_op (fun _ _ _ s => .ok (.num 2, s)) .bind (numN 1) (numN 2)
      .null 0 store0 = .ok (.null, store0) :=
  c9_theorem (fun _ _ _ s => .ok (.num 2, s)) (numN 1) (numN 2) .null (.num 2) 0 store0 store0
    rfl rfl

/-- C10: when any of the named-operator tokens `and`, `or`, `in` appears in
prefix position, the prefix rule produces a Name literal node whose
identifier is the string "and" in all three cases. -/
theorem c10_theorem (operand70 : PNode) :
    nud operand70 .and = some (.nameLit "and") ∧
    nud operand70 .or = some (.nameLit "and") ∧
    nud operand70 .inOp = some (.nameLit "and") :=
  ⟨rfl, rfl, rfl⟩

end JsonataRs
